import Mathlib

/-!
Shallow embedding of the policy evaluation and proof engine of the
`ai-agen-with-cryptography` repository.

The embedded code lives in:
* `src/lib/integrated-ai-zkvm.ts` — `IntegratedAIZkVMSystem` (dynamic policies,
  `evaluateCustomRules`, `evaluateCondition` / `safeEvaluateCondition`,
  `combineResults`, `evaluateWithZkVM`, `addCustomRule`, `addConditionalRule`,
  `createDynamicPolicy`);
* `src/lib/zkvm-policy-engine.ts` — `ZkVMPolicyEngine` (`evaluateManually`,
  `evaluatePaymentIntent`, `getDefaultPolicy`);
* `src/lib/zkp-verifier.ts` — `ZKPVerifier.verifyProof`.

Modelling conventions:
* JavaScript numbers that the code only ever uses as non-negative integers
  (amounts, risk scores, hours, timestamps) become `Nat`.
* `new Date(ts * 1000).getHours()` / `.getDay()` depend on the host timezone;
  they are modelled in the UTC reference zone as arithmetic on the Unix
  timestamp (the spec names UTC as the default reference zone).
* File-system access, child-process execution and wall-clock reads are the
  only impure points; they are modelled by passing the externally observed
  outcome (binary present / process result / current time) as an explicit
  argument.  `processingTime` (pure wall-clock telemetry) is omitted.
* JS object maps (`customRules`) are modelled as `String → Option CustomRule`;
  key assignment is pointwise function update, matching JS property
  overwrite semantics.
-/

/-- Hour of day of a Unix-seconds timestamp, UTC reference zone.
Models `new Date(intent.timestamp * 1000).getHours()`. -/
def jsGetHours (ts : Nat) : Nat := ts / 3600 % 24

/-- Day of week (0 = Sunday) of a Unix-seconds timestamp, UTC reference zone
(the Unix epoch fell on a Thursday, day 4).
Models `new Date(intent.timestamp * 1000).getDay()`. -/
def jsGetDay (ts : Nat) : Nat := (ts / 86400 + 4) % 7

/-- JS truthiness of an optional numeric field: `undefined` and `0` are falsy.
Models the guard `categoryRule.maxAmount && ...` in `evaluateCustomRules`. -/
def truthyNat : Option Nat → Bool
  | none => false
  | some n => n != 0

/-- `PaymentIntent` of `integrated-ai-zkvm.ts` (the `aiExtracted` metadata
block is never read by any of the evaluation operations and is omitted). -/
structure PaymentIntent where
  amount : Nat
  recipient : String
  vendor : String
  category : String
  timestamp : Nat
deriving DecidableEq, Repr

/-- One entry of `DynamicPolicy.rules.customRules` (a category rule). -/
structure CustomRule where
  maxAmount : Option Nat
  requireApproval : Option Bool
  additionalChecks : List String
deriving DecidableEq, Repr

/-- The action of a conditional rule: `'approve' | 'reject' | 'require_approval'`. -/
inductive RuleAction where
  | approve
  | reject
  | require_approval
deriving DecidableEq, Repr

/-- One entry of `DynamicPolicy.rules.conditionalRules`.  The free-form
`parameters: Record<string, any>` object is modelled as an association list;
it is never read by the evaluator. -/
structure ConditionalRule where
  condition : String
  action : RuleAction
  parameters : List (String × String)
deriving DecidableEq, Repr

/-- `DynamicPolicy.rules` of `integrated-ai-zkvm.ts`. -/
structure DynamicRules where
  maxPerPayment : Nat
  maxPerDay : Nat
  maxPerWeek : Nat
  allowedHoursStart : Nat
  allowedHoursEnd : Nat
  allowedWeekdays : List Nat
  allowedVendors : List String
  blockedVendors : List String
  customRules : String → Option CustomRule
  conditionalRules : List ConditionalRule

/-- `DynamicPolicy.metadata`. -/
structure PolicyMetadata where
  createdAt : String
  updatedAt : String
  author : String
deriving DecidableEq, Repr

/-- `DynamicPolicy` of `integrated-ai-zkvm.ts`. -/
structure DynamicPolicy where
  id : String
  version : String
  rules : DynamicRules
  metadata : PolicyMetadata

/-- The result of `evaluateCustomRules`
(`Omit<ZkVMEvaluation, 'proofGenerated' | 'processingTime'>`). -/
structure PreEvaluation where
  approved : Bool
  riskScore : Nat
  violationCount : Nat
  violations : List String
  appliedRules : List String
deriving DecidableEq, Repr

/-- `ZkVMEvaluation` of `integrated-ai-zkvm.ts` (without the wall-clock
`processingTime` field and the opaque `zkpReceipt`). -/
structure ZkVMEvaluation where
  approved : Bool
  riskScore : Nat
  violationCount : Nat
  violations : List String
  appliedRules : List String
  proofGenerated : Bool
deriving DecidableEq, Repr

/-- Spread of a pre-evaluation into a `ZkVMEvaluation`
(`{ ...preEvaluation, proofGenerated, processingTime }`). -/
def toZkVMEvaluation (pre : PreEvaluation) (proofGenerated : Bool) : ZkVMEvaluation :=
  { approved := pre.approved
    riskScore := pre.riskScore
    violationCount := pre.violationCount
    violations := pre.violations
    appliedRules := pre.appliedRules
    proofGenerated := proofGenerated }

/-- Step 1 of `evaluateCustomRules` (lines 316-319): basic amount limit.
Returns the contributed violation entries and risk increment. -/
def amountLimitCheck (i : PaymentIntent) (p : DynamicPolicy) : List String × Nat :=
  if i.amount > p.rules.maxPerPayment then
    (["金額上限超過: " ++ toString i.amount ++ " > " ++ toString p.rules.maxPerPayment], 30)
  else ([], 0)

/-- Step 2a of `evaluateCustomRules` (lines 323-326): allow-list check.
Fires only when `allowedVendors` is non-empty and does not contain the vendor
(`policy.rules.allowedVendors.length > 0 && !...includes(intent.vendor)`). -/
def allowListCheck (i : PaymentIntent) (p : DynamicPolicy) : List String × Nat :=
  if 0 < p.rules.allowedVendors.length ∧ i.vendor ∉ p.rules.allowedVendors then
    (["未許可ベンダー: " ++ i.vendor], 25)
  else ([], 0)

/-- Step 2b of `evaluateCustomRules` (lines 327-330): block-list check
(`policy.rules.blockedVendors.includes(intent.vendor)`). -/
def blockListCheck (i : PaymentIntent) (p : DynamicPolicy) : List String × Nat :=
  if i.vendor ∈ p.rules.blockedVendors then
    (["ブロックリストのベンダー: " ++ i.vendor], 50)
  else ([], 0)

/-- Step 3 of `evaluateCustomRules` (lines 334-338): business-hours check. -/
def hourCheck (i : PaymentIntent) (p : DynamicPolicy) : List String × Nat :=
  let hour := jsGetHours i.timestamp
  if hour < p.rules.allowedHoursStart ∨ hour ≥ p.rules.allowedHoursEnd then
    (["営業時間外: " ++ toString hour ++ "時"], 15)
  else ([], 0)

/-- Step 4 of `evaluateCustomRules` (lines 342-349): category rule.  Only the
`maxAmount` cap is enforced; the rule's `requireApproval` field is never read
by the source. -/
def categoryRuleCheck (i : PaymentIntent) (p : DynamicPolicy) : List String × Nat :=
  match p.rules.customRules i.category with
  | none => ([], 0)
  | some categoryRule =>
    if truthyNat categoryRule.maxAmount ∧ i.amount > categoryRule.maxAmount.getD 0 then
      (["カテゴリ制限超過 (" ++ i.category ++ "): " ++ toString i.amount
          ++ " > " ++ toString (categoryRule.maxAmount.getD 0)], 20)
    else ([], 0)

/-- The fixed evaluation context built by `evaluateCondition` (lines 382-390). -/
structure CondContext where
  amount : Nat
  vendor : String
  category : String
  hour : Nat
  weekday : Nat
  allowedVendors : List String
  maxPerPayment : Nat
deriving DecidableEq, Repr

/-- Context construction inside `evaluateCondition`. -/
def mkCondContext (i : PaymentIntent) (p : DynamicPolicy) : CondContext :=
  { amount := i.amount
    vendor := i.vendor
    category := i.category
    hour := jsGetHours i.timestamp
    weekday := jsGetDay i.timestamp
    allowedVendors := p.rules.allowedVendors
    maxPerPayment := p.rules.maxPerPayment }

/-- The seven condition strings in the `safeConditions` whitelist of
`safeEvaluateCondition` (lines 405-413). -/
def safeConditionKeys : List String :=
  ["amount > 200000", "amount > 100000", "amount > 50000",
   "vendor not in allowedVendors", "hour < 9 or hour >= 18",
   "weekday in [0, 6]", "category == \"high-risk\""]

/-- `safeEvaluateCondition` (lines 403-417): whitelist lookup of the condition
string; unrecognized conditions evaluate to `false`
(`return evaluator ? evaluator(context) : false`). -/
def safeEvaluateCondition (condition : String) (ctx : CondContext) : Bool :=
  if condition = "amount > 200000" then ctx.amount > 200000
  else if condition = "amount > 100000" then ctx.amount > 100000
  else if condition = "amount > 50000" then ctx.amount > 50000
  else if condition = "vendor not in allowedVendors" then !(ctx.allowedVendors.contains ctx.vendor)
  else if condition = "hour < 9 or hour >= 18" then decide (ctx.hour < 9 ∨ ctx.hour ≥ 18)
  else if condition = "weekday in [0, 6]" then decide (ctx.weekday = 0 ∨ ctx.weekday = 6)
  else if condition = "category == \"high-risk\"" then ctx.category = "high-risk"
  else false

/-- `evaluateCondition` (lines 379-398): builds the context and delegates to
`safeEvaluateCondition`; the surrounding try/catch is vacuous in the
embedding because every operation is total. -/
def evaluateCondition (condition : String) (i : PaymentIntent) (p : DynamicPolicy) : Bool :=
  safeEvaluateCondition condition (mkCondContext i p)

/-- One iteration of the conditional-rules loop of `evaluateCustomRules`
(lines 352-365).  Returns (violations, risk increment, applied-rule entries).
A matched `reject` adds a violation and 30 risk; a matched
`require_approval` adds a violation and 10 risk; a matched `approve` adds
only the applied-rule entry; an unmatched rule contributes nothing. -/
def conditionalRuleStep (i : PaymentIntent) (p : DynamicPolicy) (r : ConditionalRule) :
    List String × Nat × List String :=
  if evaluateCondition r.condition i p then
    match r.action with
    | .reject => (["条件分岐による拒否: " ++ r.condition], 30, ["条件分岐: " ++ r.condition])
    | .require_approval =>
        (["条件分岐による承認要求: " ++ r.condition], 10, ["条件分岐: " ++ r.condition])
    | .approve => ([], 0, ["条件分岐: " ++ r.condition])
  else ([], 0, [])

/-- The conditional-rules loop of `evaluateCustomRules`, accumulating in
policy order. -/
def conditionalRulesCheck (i : PaymentIntent) (p : DynamicPolicy) :
    List ConditionalRule → List String × Nat × List String
  | [] => ([], 0, [])
  | r :: rs =>
    let s := conditionalRuleStep i p r
    let rest := conditionalRulesCheck i p rs
    (s.1 ++ rest.1, s.2.1 + rest.2.1, s.2.2 ++ rest.2.2)

/-- `IntegratedAIZkVMSystem.evaluateCustomRules` (lines 310-374): the manual
in-process evaluator of the integrated system.  Violations, risk and applied
rules accumulate in the source's fixed order; `approved` requires zero
violations; the risk score is capped at 100. -/
def evaluateCustomRules (i : PaymentIntent) (p : DynamicPolicy) : PreEvaluation :=
  let a := amountLimitCheck i p
  let al := allowListCheck i p
  let bl := blockListCheck i p
  let h := hourCheck i p
  let c := categoryRuleCheck i p
  let cond := conditionalRulesCheck i p p.rules.conditionalRules
  let violations := a.1 ++ al.1 ++ bl.1 ++ h.1 ++ c.1 ++ cond.1
  let riskScore := a.2 + al.2 + bl.2 + h.2 + c.2 + cond.2.1
  let appliedRules :=
    ["基本金額制限チェック", "ベンダーホワイトリスト/ブラックリストチェック", "営業時間チェック"]
      ++ (match p.rules.customRules i.category with
          | some _ => ["カスタムルール: " ++ i.category]
          | none => []) ++ cond.2.2
  { approved := violations.length == 0
    riskScore := min riskScore 100
    violationCount := violations.length
    violations := violations
    appliedRules := appliedRules }

/-- Features of the zkVM process stdout that `executeZkVMWithParams`
(lines 464-503) extracts: whether the text contains the substring
`Approved: false`, and the first capture of the regexes
`/Risk Score: (\d+)/` and `/Violations: (\d+)/` (`none` when no match). -/
structure ZkStdout where
  containsApprovedFalse : Bool
  riskScoreMatch : Option Nat
  violationsMatch : Option Nat
deriving DecidableEq, Repr

/-- `Partial<ZkVMEvaluation>` as produced by the zkVM invocation: only the
fields the parser fills are present; `violations` is never set. -/
structure ZkVMRunResult where
  approved : Option Bool
  riskScore : Option Nat
  violationCount : Option Nat
  violations : Option (List String)
deriving DecidableEq, Repr

/-- Result parsing of `executeZkVMWithParams` (lines 487-502):
`approved = !stdout.includes('Approved: false')`, risk score and violation
count default to 0 when their regex does not match. -/
def executeZkVMWithParams (out : ZkStdout) : ZkVMRunResult :=
  { approved := some (!out.containsApprovedFalse)
    riskScore := some (out.riskScoreMatch.getD 0)
    violationCount := some (out.violationsMatch.getD 0)
    violations := none }

/-- `IntegratedAIZkVMSystem.combineResults` (lines 508-530): merges the
manual pre-evaluation with the zkVM result.  `approved` is the conjunction
(`preEvaluation.approved && (zkVMResult.approved ?? false)`), the risk score
is the maximum, violations are concatenated. -/
def combineResults (preEvaluation : PreEvaluation) (zkVMResult : ZkVMRunResult) : PreEvaluation :=
  let combinedApproved := preEvaluation.approved && zkVMResult.approved.getD false
  let combinedRiskScore := max preEvaluation.riskScore (zkVMResult.riskScore.getD 0)
  let combinedViolations := preEvaluation.violations ++ zkVMResult.violations.getD []
  { approved := combinedApproved
    riskScore := combinedRiskScore
    violationCount := combinedViolations.length
    violations := combinedViolations
    appliedRules := preEvaluation.appliedRules ++ ["zkVM暗号学的証明"] }

/-- Externally observed outcome of the zkVM proof-backend invocation inside
`evaluateWithZkVM`: the host binary may be absent (`fs.existsSync` false),
the process may fail (timeout, crash, non-zero exit — `execAsync` rejects
and control reaches the catch block), or the process terminates with exit
code 0 and some stdout. -/
inductive ZkVMOutcome where
  | missingBinary
  | execFailure
  | success (out : ZkStdout)

/-- `IntegratedAIZkVMSystem.evaluateWithZkVM` (lines 246-305), the evaluation
entry point of the integrated system, with the process-boundary outcome
passed explicitly.  Missing binary: returns the pre-evaluation with
`proofGenerated = false`.  Process failure: the catch block recomputes
`evaluateCustomRules` as fallback, `proofGenerated = false`.  Success:
`combineResults` of pre-evaluation and parsed stdout, `proofGenerated = true`. -/
def evaluateWithZkVM (i : PaymentIntent) (p : DynamicPolicy) (outcome : ZkVMOutcome) :
    ZkVMEvaluation :=
  let preEvaluation := evaluateCustomRules i p
  match outcome with
  | .missingBinary => toZkVMEvaluation preEvaluation false
  | .execFailure => toZkVMEvaluation (evaluateCustomRules i p) false
  | .success out =>
      toZkVMEvaluation (combineResults preEvaluation (executeZkVMWithParams out)) true

/-- The default `customRules` map of `createDynamicPolicy` (lines 170-175),
before the caller-supplied overrides are spread in. -/
def defaultCustomRules : String → Option CustomRule := fun c =>
  if c = "utilities" then some ⟨some 50000, some false, []⟩
  else if c = "software" then some ⟨some 200000, some true, []⟩
  else if c = "consulting" then some ⟨some 500000, some true, []⟩
  else none

/-- `IntegratedAIZkVMSystem.createDynamicPolicy` (lines 150-206) with an empty
`customRules` override.  `Date.now()` and `new Date().toISOString()` are
passed explicitly as `nowMs` / `nowIso`. -/
def createDynamicPolicy (userId : String) (nowMs : Nat) (nowIso : String) : DynamicPolicy :=
  { id := "policy_" ++ userId ++ "_" ++ toString nowMs
    version := "1.0.0"
    rules :=
      { maxPerPayment := 100000
        maxPerDay := 500000
        maxPerWeek := 2000000
        allowedHoursStart := 9
        allowedHoursEnd := 18
        allowedWeekdays := [1, 2, 3, 4, 5]
        allowedVendors := []
        blockedVendors := ["suspicious-vendor.com"]
        customRules := defaultCustomRules
        conditionalRules :=
          [⟨"amount > 200000", .require_approval, [("reason", "高額支払いのため承認が必要")]⟩,
           ⟨"vendor not in allowedVendors", .require_approval,
             [("reason", "新規ベンダーのため承認が必要")]⟩] }
    metadata := { createdAt := nowIso, updatedAt := nowIso, author := userId } }

/-- `IntegratedAIZkVMSystem.addCustomRule` (lines 211-221).  The source
mutates the policy object in place (`policy.rules.customRules[category] =
rule; policy.metadata.updatedAt = ...`) and returns the same object: the
category rule is inserted or overwritten, `updatedAt` is refreshed, and no
other field — in particular `version` — changes. -/
def addCustomRule (policy : DynamicPolicy) (category : String) (rule : CustomRule)
    (nowIso : String) : DynamicPolicy :=
  { policy with
    rules := { policy.rules with
      customRules := fun c => if c = category then some rule else policy.rules.customRules c }
    metadata := { policy.metadata with updatedAt := nowIso } }

/-- `IntegratedAIZkVMSystem.addConditionalRule` (lines 226-241).  The source
pushes the new rule onto `policy.rules.conditionalRules` in place with no
validation of the condition string, refreshes `updatedAt`, and returns the
same object; `version` never changes. -/
def addConditionalRule (policy : DynamicPolicy) (condition : String) (action : RuleAction)
    (parameters : List (String × String)) (nowIso : String) : DynamicPolicy :=
  { policy with
    rules := { policy.rules with
      conditionalRules := policy.rules.conditionalRules ++ [⟨condition, action, parameters⟩] }
    metadata := { policy.metadata with updatedAt := nowIso } }

/-- Replace only the `conditionalRules` field of a policy (used to state
frame properties of the conditional-rule machinery). -/
def setConditionalRules (p : DynamicPolicy) (rs : List ConditionalRule) : DynamicPolicy :=
  { p with rules := { p.rules with conditionalRules := rs } }

/-- `PaymentIntent` of `zkvm-policy-engine.ts`. -/
structure EnginePaymentIntent where
  amount : Nat
  recipient : String
  timestamp : Nat
  vendor : String
deriving DecidableEq, Repr

/-- `PolicyRules` of `zkvm-policy-engine.ts`. -/
structure PolicyRules where
  maxPerPayment : Nat
  maxPerDay : Nat
  maxPerWeek : Nat
  allowedVendors : List String
  allowedHoursStart : Nat
  allowedHoursEnd : Nat
  allowedWeekdays : List Nat
deriving DecidableEq, Repr

/-- `Pick<PolicyEvaluation, 'approved' | 'riskScore' | 'violationCount'>`,
the result of `ZkVMPolicyEngine.evaluateManually`. -/
structure ManualEvaluation where
  approved : Bool
  riskScore : Nat
  violationCount : Nat
deriving DecidableEq, Repr

/-- `PolicyEvaluation` of `zkvm-policy-engine.ts` (without the wall-clock
`processingTime`). -/
structure PolicyEvaluation where
  approved : Bool
  riskScore : Nat
  violationCount : Nat
  proofGenerated : Bool
deriving DecidableEq, Repr

/-- One check of `evaluateManually`: a firing check contributes one violation
and its risk weight, a passing check contributes nothing. -/
def chk (fired : Bool) (weight : Nat) : Nat × Nat :=
  if fired then (1, weight) else (0, 0)

/-- `ZkVMPolicyEngine.evaluateManually` (lines 126-176): six checks in fixed
order — per-payment cap (+30), daily cap (+25), weekly cap (+20), vendor
allow-list membership (+25, unconditional: `!policy.allowedVendors.includes
(intent.vendor)` with no emptiness guard), business hours (+15), weekday
(+10).  Approved iff zero violations; risk capped at 100. -/
def evaluateManually (i : EnginePaymentIntent) (p : PolicyRules)
    (currentSpending weeklySpending : Nat) : ManualEvaluation :=
  let c1 := chk (i.amount > p.maxPerPayment) 30
  let c2 := chk (currentSpending + i.amount > p.maxPerDay) 25
  let c3 := chk (weeklySpending + i.amount > p.maxPerWeek) 20
  let c4 := chk (!(p.allowedVendors.contains i.vendor)) 25
  let hour := jsGetHours i.timestamp
  let c5 := chk (decide (hour < p.allowedHoursStart ∨ hour ≥ p.allowedHoursEnd)) 15
  let weekday := jsGetDay i.timestamp
  let c6 := chk (!(p.allowedWeekdays.contains weekday)) 10
  let violationCount := c1.1 + c2.1 + c3.1 + c4.1 + c5.1 + c6.1
  let riskScore := c1.2 + c2.2 + c3.2 + c4.2 + c5.2 + c6.2
  { approved := violationCount == 0
    riskScore := min riskScore 100
    violationCount := violationCount }

/-- Parsed stdout of the engine's zkVM host run (`executeZkVMHost`,
lines 238-274), abstracted to the triple its line scan extracts. -/
structure EngineRunResult where
  approved : Bool
  riskScore : Nat
  violationCount : Nat
deriving DecidableEq, Repr

/-- Externally observed outcome of the engine's zkVM invocation inside
`evaluatePaymentIntent`: host binary absent (the explicit `existsSync` check
throws into the catch block), proof generation disabled by configuration,
process failure (`execAsync` rejects into the catch block), or a completed
run with parsed output. -/
inductive EngineOutcome where
  | missingBinary
  | proofDisabled
  | execFailure
  | success (r : EngineRunResult)

/-- `ZkVMPolicyEngine.evaluatePaymentIntent` (lines 57-121), the engine's
evaluation entry point.  Every unavailable path (missing binary, disabled
proof generation, process failure) degrades to `evaluateManually` with
`proofGenerated = false`; a completed run returns the parsed result with
`proofGenerated = true`.  The catch block guarantees the caller always
receives a `PolicyEvaluation`. -/
def evaluatePaymentIntent (i : EnginePaymentIntent) (p : PolicyRules)
    (currentSpending weeklySpending : Nat) (outcome : EngineOutcome) : PolicyEvaluation :=
  match outcome with
  | .missingBinary =>
      let m := evaluateManually i p currentSpending weeklySpending
      ⟨m.approved, m.riskScore, m.violationCount, false⟩
  | .proofDisabled =>
      let m := evaluateManually i p currentSpending weeklySpending
      ⟨m.approved, m.riskScore, m.violationCount, false⟩
  | .execFailure =>
      let m := evaluateManually i p currentSpending weeklySpending
      ⟨m.approved, m.riskScore, m.violationCount, false⟩
  | .success r => ⟨r.approved, r.riskScore, r.violationCount, true⟩

/-- `ZkVMPolicyEngine.getDefaultPolicy` (lines 328-338). -/
def getDefaultPolicy : PolicyRules :=
  { maxPerPayment := 100000
    maxPerDay := 500000
    maxPerWeek := 2000000
    allowedVendors := []
    allowedHoursStart := 9
    allowedHoursEnd := 18
    allowedWeekdays := [1, 2, 3, 4, 5] }

/-- The `proof` blob carried inside a `ZKPProof` artifact, with the
properties `ZKPVerifier.verifyProof` inspects (`proof.mock`,
`proof.validated`, `proof.error`; the free-form `message`/`type` fields are
never branched on). -/
structure ProofBlob where
  mock : Bool
  validated : Bool
  error : Bool
deriving DecidableEq, Repr

/-- `ZKPProof` of `zkp-prover.ts`: `{ proof, publicSignals, isValid }`. -/
structure ZKPProof where
  proof : ProofBlob
  publicSignals : List String
  isValid : Bool
deriving DecidableEq, Repr

/-- The JSON object printed on the last stdout line of the verification
worker process (`{ success, isValid, error? }`). -/
structure WorkerResult where
  success : Bool
  isValid : Bool
deriving DecidableEq, Repr

/-- `ZKPVerifier.verifyProof` (lines 25-93), with the two impure observations
passed explicitly: whether the verification-key file exists, and the worker
process outcome (`none` when the process times out / crashes / prints
unparseable JSON, in which case control reaches the catch block).  Mock
artifacts return their own `validated` flag; error artifacts and the
missing-key fallback return the artifact's `isValid` flag; a worker result
with `success = false` raises into the catch block, which returns `false`. -/
def verifyProof (zkpProof : ZKPProof) (keyPresent : Bool) (worker : Option WorkerResult) : Bool :=
  if zkpProof.proof.mock then zkpProof.proof.validated
  else if zkpProof.proof.error then zkpProof.isValid
  else if !keyPresent then zkpProof.isValid
  else
    match worker with
    | none => false
    | some w => if w.success then w.isValid else false

/-! ### Concrete fixtures -/

/-- A payment intent that passes every default check: amount under the cap,
timestamp 468000 = Tuesday 1970-01-06 10:00 UTC (hour 10, weekday 2). -/
def sampleIntent : PaymentIntent :=
  { amount := 50000
    recipient := "0x0000000000000000000000000000000000000000"
    vendor := "Acme"
    category := "other"
    timestamp := 468000 }

/-- The default dynamic policy with the sample vendor allow-listed and no
conditional rules, so that `sampleIntent` evaluates with zero violations. -/
def cleanPolicy : DynamicPolicy :=
  let p := createDynamicPolicy "user123" 0 "2024-01-01T00:00:00.000Z"
  { p with rules := { p.rules with allowedVendors := ["Acme"], conditionalRules := [] } }

/-- `sampleIntent` with the amount raised over the 100000 per-payment cap:
exactly one violating condition holds. -/
def overIntent : PaymentIntent := { sampleIntent with amount := 150000 }

/-- Intent of the spec's category-override scenario: category `software`,
amount 50000 (under the category cap of 200000). -/
def softwareIntent : PaymentIntent := { sampleIntent with category := "software" }

/-- `cleanPolicy` restricted to its category rules (`software` carries
`requireApproval = true` from the defaults); no conditional rules, vendor
allow-listed, so only the category rule is in play. -/
def softwarePolicy : DynamicPolicy := cleanPolicy

/-- `cleanPolicy` with a single conditional rule whose action is
`require_approval`, matched by `raIntent`. -/
def raPolicy : DynamicPolicy :=
  setConditionalRules cleanPolicy [⟨"amount > 50000", .require_approval, []⟩]

/-- Intent matching `raPolicy`'s conditional rule (amount 60000 > 50000) and
passing every other check. -/
def raIntent : PaymentIntent := { sampleIntent with amount := 60000 }

/-- A policy whose allow list and block list both contain the sample vendor. -/
def dualListPolicy : DynamicPolicy :=
  { cleanPolicy with rules := { cleanPolicy.rules with
      allowedVendors := ["Acme"], blockedVendors := ["Acme"] } }

/-- Engine intent passing every check of `getDefaultPolicy` except (possibly)
the allow-list membership check: amount 1000, Tuesday 10:00 UTC. -/
def engineIntent : EnginePaymentIntent :=
  { amount := 1000, recipient := "r", timestamp := 468000, vendor := "Acme" }

/-- `getDefaultPolicy` with the sample vendor allow-listed. -/
def engineAllowPolicy : PolicyRules := { getDefaultPolicy with allowedVendors := ["Acme"] }

/-- `engineIntent` with the amount raised over the per-payment cap. -/
def engineOverIntent : EnginePaymentIntent := { engineIntent with amount := 150000 }

/-- A real (non-mock, non-error) proof artifact that claims validity. -/
def unverifiedProof : ZKPProof :=
  { proof := { mock := false, validated := false, error := false }
    publicSignals := ["1"]
    isValid := true }

/-- Stdout features of a zkVM run whose stdout is empty or otherwise carries
none of the recognized markers (no `Approved: false` substring, no regex
match): this is what `executeZkVMWithParams` extracts from the string `""`. -/
def garbageStdout : ZkStdout :=
  { containsApprovedFalse := false, riskScoreMatch := none, violationsMatch := none }

/-! ### Helper lemmas -/

theorem amountLimitCheck_nil (i : PaymentIntent) (p : DynamicPolicy) :
    (amountLimitCheck i p).1 = [] → (amountLimitCheck i p).2 = 0 := by
  unfold amountLimitCheck
  split <;> simp

theorem allowListCheck_nil (i : PaymentIntent) (p : DynamicPolicy) :
    (allowListCheck i p).1 = [] → (allowListCheck i p).2 = 0 := by
  unfold allowListCheck
  split <;> simp

theorem blockListCheck_nil (i : PaymentIntent) (p : DynamicPolicy) :
    (blockListCheck i p).1 = [] → (blockListCheck i p).2 = 0 := by
  unfold blockListCheck
  split <;> simp

theorem hourCheck_nil (i : PaymentIntent) (p : DynamicPolicy) :
    (hourCheck i p).1 = [] → (hourCheck i p).2 = 0 := by
  simp only [hourCheck]
  split <;> simp

theorem categoryRuleCheck_nil (i : PaymentIntent) (p : DynamicPolicy) :
    (categoryRuleCheck i p).1 = [] → (categoryRuleCheck i p).2 = 0 := by
  unfold categoryRuleCheck
  split
  · simp
  · split <;> simp

theorem conditionalRuleStep_nil (i : PaymentIntent) (p : DynamicPolicy) (r : ConditionalRule) :
    (conditionalRuleStep i p r).1 = [] → (conditionalRuleStep i p r).2.1 = 0 := by
  unfold conditionalRuleStep
  split
  · cases r.action <;> simp
  · simp

theorem conditionalRulesCheck_nil (i : PaymentIntent) (p : DynamicPolicy) :
    ∀ rs : List ConditionalRule, (conditionalRulesCheck i p rs).1 = [] →
      (conditionalRulesCheck i p rs).2.1 = 0
  | [] => by simp [conditionalRulesCheck]
  | r :: rs => by
    intro h
    have h' : (conditionalRuleStep i p r).1 = [] ∧ (conditionalRulesCheck i p rs).1 = [] :=
      List.append_eq_nil.mp (by simpa [conditionalRulesCheck] using h)
    have hs := conditionalRuleStep_nil i p r h'.1
    have hr := conditionalRulesCheck_nil i p rs h'.2
    simp [conditionalRulesCheck, hs, hr]

/-- In `evaluateCustomRules` every risk increment is paired with a violation
push, so a decision with no violations has risk 0. -/
theorem evaluateCustomRules_nil_risk (i : PaymentIntent) (p : DynamicPolicy)
    (h : (evaluateCustomRules i p).violations = []) :
    (evaluateCustomRules i p).riskScore = 0 := by
  simp only [evaluateCustomRules, List.append_eq_nil] at h ⊢
  obtain ⟨⟨⟨⟨⟨h1, h2⟩, h3⟩, h4⟩, h5⟩, h6⟩ := h
  rw [amountLimitCheck_nil i p h1, allowListCheck_nil i p h2, blockListCheck_nil i p h3,
    hourCheck_nil i p h4, categoryRuleCheck_nil i p h5, conditionalRulesCheck_nil i p _ h6]
  simp

theorem evaluateCustomRules_count (i : PaymentIntent) (p : DynamicPolicy) :
    (evaluateCustomRules i p).violationCount = (evaluateCustomRules i p).violations.length := rfl

theorem evaluateCustomRules_approved (i : PaymentIntent) (p : DynamicPolicy) :
    (evaluateCustomRules i p).approved = ((evaluateCustomRules i p).violations.length == 0) := rfl

theorem evaluateCustomRules_risk_le (i : PaymentIntent) (p : DynamicPolicy) :
    (evaluateCustomRules i p).riskScore ≤ 100 := by
  simp only [evaluateCustomRules]
  exact Nat.min_le_right _ _

theorem chk_zero (b : Bool) (w : Nat) : (chk b w).1 = 0 → (chk b w).2 = 0 := by
  cases b <;> simp [chk]

/-- In `evaluateManually` every risk increment is paired with a violation
count increment, so a decision with zero violations has risk 0. -/
theorem evaluateManually_zero_risk (i : EnginePaymentIntent) (p : PolicyRules)
    (cs ws : Nat) (h : (evaluateManually i p cs ws).violationCount = 0) :
    (evaluateManually i p cs ws).riskScore = 0 := by
  simp only [evaluateManually] at h ⊢
  rw [chk_zero _ _ (by omega), chk_zero _ _ (by omega), chk_zero _ _ (by omega),
    chk_zero _ _ (by omega), chk_zero _ _ (by omega), chk_zero _ _ (by omega)]
  simp

theorem evaluateManually_risk_le (i : EnginePaymentIntent) (p : PolicyRules) (cs ws : Nat) :
    (evaluateManually i p cs ws).riskScore ≤ 100 := by
  simp only [evaluateManually]
  exact Nat.min_le_right _ _

/-! ### Claims -/

/-- C1 counterexample: the engine entry point
`ZkVMPolicyEngine.evaluatePaymentIntent` does NOT conjoin the manual result
on its success path — it returns the parsed zkVM `approved` alone.  With the
engine's own default policy (empty allow list) the manual evaluator rejects,
yet a run whose stdout reports approval yields a final `approved = true`:
the proof result alone approves what the manual evaluator rejected,
refuting the claimed conjunction for this cited entry point. -/
theorem c1_counterexample_engineSuccessIgnoresManual :
    (evaluatePaymentIntent engineIntent getDefaultPolicy 0 0 (.success ⟨true, 0, 0⟩)).approved
        = true
      ∧ (evaluateManually engineIntent getDefaultPolicy 0 0).approved = false :=
  ⟨rfl, rfl⟩

/-- C1 (amended): in the integrated system the success path does require both
evaluators to approve — `evaluateWithZkVM` applies `combineResults`, whose
`approved` is exactly the conjunction of the manual evaluator's flag and the
proof backend's parsed flag (`!stdout.includes('Approved: false')`).  In
`ZkVMPolicyEngine.evaluatePaymentIntent`, however, the success path returns
the parsed zkVM `approved` unchanged, without consulting `evaluateManually`. -/
theorem c1_amended_conjunctionOnlyInIntegratedSystem (i : PaymentIntent) (p : DynamicPolicy)
    (out : ZkStdout) (ei : EnginePaymentIntent) (ep : PolicyRules) (cs ws : Nat)
    (r : EngineRunResult) :
    ((evaluateWithZkVM i p (.success out)).approved
        = ((evaluateCustomRules i p).approved && (!out.containsApprovedFalse))
      ∧ (executeZkVMWithParams out).approved = some (!out.containsApprovedFalse))
      ∧ ((evaluatePaymentIntent ei ep cs ws (.success r)).approved = r.approved
        ∧ (evaluatePaymentIntent ei ep cs ws (.success r)).proofGenerated = true) := by
  refine ⟨⟨?_, rfl⟩, rfl, rfl⟩
  simp [evaluateWithZkVM, toZkVMEvaluation, combineResults, executeZkVMWithParams]

/-- C2 counterexample: unparseable zkVM output is NOT treated as
unavailability.  `garbageStdout` is what the lenient parser extracts from an
empty (or arbitrary marker-free) stdout; the entry point then reports
`proofGenerated = true` (and even keeps the manual approval), contradicting
the claim that unparseable output yields `proofGenerated = false`. -/
theorem c2_counterexample_unparseableOutput :
    (evaluateWithZkVM sampleIntent cleanPolicy (.success garbageStdout)).proofGenerated = true
      ∧ (evaluateWithZkVM sampleIntent cleanPolicy (.success garbageStdout)).approved = true :=
  ⟨rfl, rfl⟩

/-- C2 (amended): for a missing binary or a failing proof process (timeout,
crash, non-zero exit) both evaluation entry points return a decision — never
an exception — whose `approved` flag equals exactly what the manual
evaluator alone grants, with `proofGenerated = false`.  (Unparseable output
of a zero-exit process is instead treated as a successful proof run.) -/
theorem c2_amended_failClosedOnUnavailability (i : PaymentIntent) (p : DynamicPolicy)
    (ei : EnginePaymentIntent) (ep : PolicyRules) (cs ws : Nat) :
    ((evaluateWithZkVM i p .missingBinary).approved = (evaluateCustomRules i p).approved
        ∧ (evaluateWithZkVM i p .missingBinary).proofGenerated = false)
      ∧ ((evaluateWithZkVM i p .execFailure).approved = (evaluateCustomRules i p).approved
        ∧ (evaluateWithZkVM i p .execFailure).proofGenerated = false)
      ∧ ((evaluatePaymentIntent ei ep cs ws .missingBinary).approved
            = (evaluateManually ei ep cs ws).approved
        ∧ (evaluatePaymentIntent ei ep cs ws .missingBinary).proofGenerated = false)
      ∧ ((evaluatePaymentIntent ei ep cs ws .execFailure).approved
            = (evaluateManually ei ep cs ws).approved
        ∧ (evaluatePaymentIntent ei ep cs ws .execFailure).proofGenerated = false) :=
  ⟨⟨rfl, rfl⟩, ⟨rfl, rfl⟩, ⟨rfl, rfl⟩, ⟨rfl, rfl⟩⟩

/-- C3 counterexample: a real (non-mock, non-error) artifact that merely
claims `isValid = true` is accepted by `verifyProof` when the verification
key file is absent — the verifier returns the artifact's own flag instead of
failing closed. -/
theorem c3_counterexample_missingKeyTrustsArtifact :
    verifyProof unverifiedProof false none = true
      ∧ unverifiedProof.proof.mock = false ∧ unverifiedProof.proof.error = false :=
  ⟨rfl, rfl, rfl⟩

/-- C3 (amended): for a real (non-mock, non-error) artifact with the
verification key present, `verifyProof` is fail-closed — a crashed or
unparseable worker yields `false`, and otherwise the result is exactly
`success && isValid` of the worker; but when the key is absent the verifier
falls back to the artifact's own `isValid` flag (fail-open). -/
theorem c3_amended_verifierFailClosedOnlyWithKey (p : ZKPProof) (w : Option WorkerResult)
    (r : WorkerResult) (hm : p.proof.mock = false) (he : p.proof.error = false) :
    verifyProof p true none = false
      ∧ verifyProof p true (some r) = (r.success && r.isValid)
      ∧ verifyProof p false w = p.isValid := by
  refine ⟨?_, ?_, ?_⟩
  · simp [verifyProof, hm, he]
  · cases hs : r.success <;> simp [verifyProof, hm, he, hs]
  · simp [verifyProof, hm, he]

theorem c3_amended_verifierFailClosedOnlyWithKey_witness :
    verifyProof unverifiedProof true none = false
      ∧ verifyProof unverifiedProof true (some ⟨false, true⟩) = (false && true)
      ∧ verifyProof unverifiedProof false none = unverifiedProof.isValid :=
  c3_amended_verifierFailClosedOnlyWithKey unverifiedProof none ⟨false, true⟩ rfl rfl

/-- C4: Block-list supremacy.  When the vendor is in both lists, the
block-list check fires with risk weight 50 (and the allow-list check, whose
membership test passes, contributes nothing), so the violation list is
non-empty and the decision is rejected. -/
theorem c4_blockListSupremacy (i : PaymentIntent) (p : DynamicPolicy)
    (hA : i.vendor ∈ p.rules.allowedVendors) (hB : i.vendor ∈ p.rules.blockedVendors) :
    (evaluateCustomRules i p).approved = false
      ∧ blockListCheck i p = (["ブロックリストのベンダー: " ++ i.vendor], 50)
      ∧ allowListCheck i p = ([], 0) := by
  have hb : blockListCheck i p = (["ブロックリストのベンダー: " ++ i.vendor], 50) := by
    simp [blockListCheck, hB]
  have ha : allowListCheck i p = ([], 0) := by
    simp [allowListCheck, hA]
  refine ⟨?_, hb, ha⟩
  have hlen : (evaluateCustomRules i p).violations.length ≠ 0 := by
    simp [evaluateCustomRules, hb, List.length_append]
  rw [evaluateCustomRules_approved]
  simp [hlen]

theorem c4_blockListSupremacy_witness :
    (evaluateCustomRules sampleIntent dualListPolicy).approved = false
      ∧ blockListCheck sampleIntent dualListPolicy
          = (["ブロックリストのベンダー: " ++ sampleIntent.vendor], 50)
      ∧ allowListCheck sampleIntent dualListPolicy = ([], 0) :=
  c4_blockListSupremacy sampleIntent dualListPolicy (by decide) (by decide)

/-- C5 (code bug): the evaluator ignores `requireApproval` entirely.  At the
spec's own scenario — category `software` whose rule carries
`requireApproval = true`, amount 50000 under the category cap — the code
returns `approved = true` with no violations and risk 0 (its decision type
has no `requiresManualApproval` field at all), where the claim requires
`approved = false`.  Moreover a matched conditional rule whose action is
`require_approval` appends a violation entry and adds 10 risk, which the
claim forbids. -/
theorem c5_requireApprovalIgnored :
    softwarePolicy.rules.customRules "software"
        = some { maxAmount := some 200000, requireApproval := some true, additionalChecks := [] }
      ∧ (evaluateCustomRules softwareIntent softwarePolicy).approved = true
      ∧ (evaluateCustomRules softwareIntent softwarePolicy).violations = []
      ∧ (evaluateCustomRules softwareIntent softwarePolicy).riskScore = 0
      ∧ (evaluateCustomRules raIntent raPolicy).violations
          = ["条件分岐による承認要求: amount > 50000"]
      ∧ (evaluateCustomRules raIntent raPolicy).riskScore = 10
      ∧ (evaluateCustomRules raIntent raPolicy).approved = false :=
  ⟨rfl, rfl, rfl, rfl, rfl, rfl, rfl⟩

/-- C6 counterexample: `ZkVMPolicyEngine.evaluateManually` has no emptiness
guard on its allow-list check, so with the engine's own default policy
(empty `allowedVendors`) an otherwise fully compliant intent still collects
the 25-point allow-list violation and is rejected. -/
theorem c6_counterexample_engineEmptyAllowListFires :
    getDefaultPolicy.allowedVendors = []
      ∧ (evaluateManually engineIntent getDefaultPolicy 0 0).violationCount = 1
      ∧ (evaluateManually engineIntent getDefaultPolicy 0 0).riskScore = 25
      ∧ (evaluateManually engineIntent getDefaultPolicy 0 0).approved = false :=
  ⟨rfl, rfl, rfl, rfl⟩

/-- C6 (amended): in `IntegratedAIZkVMSystem.evaluateCustomRules` the
allow-list check fires exactly when the allow list is non-empty and does not
contain the vendor — in particular an empty allow list contributes no
violation and no 25-point increment; in `ZkVMPolicyEngine.evaluateManually`
the membership check is unconditional, so an empty allow list always yields
at least one violation and at least 25 risk. -/
theorem c6_amended_allowListEmptinessGuard (i : PaymentIntent) (p : DynamicPolicy)
    (ei : EnginePaymentIntent) (ep : PolicyRules) (cs ws : Nat)
    (h : ep.allowedVendors = []) :
    allowListCheck i p
        = (if 0 < p.rules.allowedVendors.length ∧ i.vendor ∉ p.rules.allowedVendors
           then (["未許可ベンダー: " ++ i.vendor], 25) else ([], 0))
      ∧ (p.rules.allowedVendors = [] → allowListCheck i p = ([], 0))
      ∧ 1 ≤ (evaluateManually ei ep cs ws).violationCount
      ∧ 25 ≤ (evaluateManually ei ep cs ws).riskScore := by
  refine ⟨rfl, ?_, ?_, ?_⟩
  · intro h0
    simp [allowListCheck, h0]
  · have h4 : chk (!(ep.allowedVendors.contains ei.vendor)) 25 = (1, 25) := by
      simp [h, chk]
    simp only [evaluateManually, h4]
    omega
  · have h4 : chk (!(ep.allowedVendors.contains ei.vendor)) 25 = (1, 25) := by
      simp [h, chk]
    simp only [evaluateManually, h4]
    omega

theorem c6_amended_allowListEmptinessGuard_witness :
    (allowListCheck sampleIntent cleanPolicy
        = (if 0 < cleanPolicy.rules.allowedVendors.length
               ∧ sampleIntent.vendor ∉ cleanPolicy.rules.allowedVendors
           then (["未許可ベンダー: " ++ sampleIntent.vendor], 25) else ([], 0)))
      ∧ (cleanPolicy.rules.allowedVendors = [] → allowListCheck sampleIntent cleanPolicy = ([], 0))
      ∧ 1 ≤ (evaluateManually engineIntent getDefaultPolicy 0 0).violationCount
      ∧ 25 ≤ (evaluateManually engineIntent getDefaultPolicy 0 0).riskScore :=
  c6_amended_allowListEmptinessGuard sampleIntent cleanPolicy engineIntent getDefaultPolicy 0 0 rfl

/-- C7 counterexample: `addConditionalRule` performs no validation at
policy-edit time.  A condition string outside the closed grammar (the
`safeConditions` whitelist) is appended verbatim instead of the operation
failing, so a policy containing an unrecognized condition does reach the
evaluator.  (No `InvalidExpressionError` exists anywhere in the source.) -/
theorem c7_counterexample_noEditTimeValidation :
    "nonsense condition" ∉ safeConditionKeys
      ∧ (addConditionalRule cleanPolicy "nonsense condition" .reject [] "t").rules.conditionalRules
          = cleanPolicy.rules.conditionalRules ++ [⟨"nonsense condition", .reject, []⟩] :=
  ⟨by decide, rfl⟩

/-- C7 (amended): `addConditionalRule` appends any condition string —
recognized or not — without validation and never fails; the version field is
untouched.  Unrecognized conditions are instead inert at evaluation time
(see the C10 development). -/
theorem c7_amended_appendWithoutValidation (p : DynamicPolicy) (c : String) (a : RuleAction)
    (prm : List (String × String)) (now : String) :
    (addConditionalRule p c a prm now).rules.conditionalRules
        = p.rules.conditionalRules ++ [⟨c, a, prm⟩]
      ∧ (addConditionalRule p c a prm now).version = p.version
      ∧ (addConditionalRule p c a prm now).metadata.updatedAt = now :=
  ⟨rfl, rfl, rfl⟩

/-- The category rule added in the source demo (`FullIntegrationDemo`). -/
def cloudServicesRule : CustomRule :=
  { maxAmount := some 200000
    requireApproval := some false
    additionalChecks := ["vendor-verification"] }

/-- C8 counterexample: inserting a category rule does not increment the
version — the returned policy (the same mutated object in the source) still
carries version `1.0.0`, refuting `version strictly greater`. -/
theorem c8_counterexample_versionNotIncremented :
    (addCustomRule cleanPolicy "cloud-services" cloudServicesRule "t1").version
        = cleanPolicy.version
      ∧ cleanPolicy.version = "1.0.0" :=
  ⟨rfl, rfl⟩

/-- C8 (amended): `addCustomRule` updates the policy in place (the source
mutates and returns the same object): the category rule is inserted or
overwritten, every other category's rule and the conditional rules are
unchanged, `updatedAt` is refreshed, and the version is NOT incremented. -/
theorem c8_amended_inPlaceUpdateNoVersionBump (p : DynamicPolicy) (cat : String)
    (r : CustomRule) (now : String) (c : String) (h : c ≠ cat) :
    (addCustomRule p cat r now).version = p.version
      ∧ (addCustomRule p cat r now).rules.customRules cat = some r
      ∧ (addCustomRule p cat r now).rules.customRules c = p.rules.customRules c
      ∧ (addCustomRule p cat r now).rules.conditionalRules = p.rules.conditionalRules
      ∧ (addCustomRule p cat r now).metadata.updatedAt = now := by
  refine ⟨rfl, ?_, ?_, rfl, rfl⟩
  · simp [addCustomRule]
  · simp [addCustomRule, h]

theorem c8_amended_inPlaceUpdateNoVersionBump_witness :
    (addCustomRule cleanPolicy "cloud-services" cloudServicesRule "t1").version
        = cleanPolicy.version
      ∧ (addCustomRule cleanPolicy "cloud-services" cloudServicesRule
            "t1").rules.customRules "cloud-services" = some cloudServicesRule
      ∧ (addCustomRule cleanPolicy "cloud-services" cloudServicesRule
            "t1").rules.customRules "utilities" = cleanPolicy.rules.customRules "utilities"
      ∧ (addCustomRule cleanPolicy "cloud-services" cloudServicesRule
            "t1").rules.conditionalRules = cleanPolicy.rules.conditionalRules
      ∧ (addCustomRule cleanPolicy "cloud-services" cloudServicesRule
            "t1").metadata.updatedAt = "t1" :=
  c8_amended_inPlaceUpdateNoVersionBump cleanPolicy "cloud-services" cloudServicesRule
    "t1" "utilities" (by decide)

/-- C9: risk is monotone under added violations.  In both manual evaluators
every risk increment is paired with a violation, so an intent/policy pair
with zero violations has risk 0; any pair with exactly one violation has a
risk score at least as large (and still capped at 100) and is rejected — no
added violation can flip `approved` from false to true, since approval
requires an empty violation list. -/
theorem c9_monotonicRiskUnderViolation (i : PaymentIntent) (p : DynamicPolicy)
    (i' : PaymentIntent) (p' : DynamicPolicy)
    (ei : EnginePaymentIntent) (ep : PolicyRules) (cs ws : Nat)
    (ei' : EnginePaymentIntent) (ep' : PolicyRules) (cs' ws' : Nat)
    (h0 : (evaluateCustomRules i p).violationCount = 0)
    (h1 : (evaluateCustomRules i' p').violationCount = 1)
    (g0 : (evaluateManually ei ep cs ws).violationCount = 0)
    (g1 : (evaluateManually ei' ep' cs' ws').violationCount = 1) :
    ((evaluateCustomRules i p).riskScore ≤ (evaluateCustomRules i' p').riskScore
      ∧ (evaluateCustomRules i' p').approved = false
      ∧ (evaluateCustomRules i' p').riskScore ≤ 100)
    ∧ ((evaluateManually ei ep cs ws).riskScore ≤ (evaluateManually ei' ep' cs' ws').riskScore
      ∧ (evaluateManually ei' ep' cs' ws').approved = false
      ∧ (evaluateManually ei' ep' cs' ws').riskScore ≤ 100) := by
  have hv : (evaluateCustomRules i p).violations = [] := by
    rw [evaluateCustomRules_count] at h0
    exact List.length_eq_zero.mp h0
  have hr0 := evaluateCustomRules_nil_risk i p hv
  have happ : (evaluateCustomRules i' p').approved = false := by
    rw [evaluateCustomRules_approved, ← evaluateCustomRules_count, h1]
    rfl
  have gr0 := evaluateManually_zero_risk ei ep cs ws g0
  have gapp : (evaluateManually ei' ep' cs' ws').approved = false := by
    have : (evaluateManually ei' ep' cs' ws').approved
        = ((evaluateManually ei' ep' cs' ws').violationCount == 0) := rfl
    rw [this, g1]
    rfl
  exact ⟨⟨hr0 ▸ Nat.zero_le _, happ, evaluateCustomRules_risk_le i' p'⟩,
    ⟨gr0 ▸ Nat.zero_le _, gapp, evaluateManually_risk_le ei' ep' cs' ws'⟩⟩

theorem c9_monotonicRiskUnderViolation_witness :
    (evaluateCustomRules sampleIntent cleanPolicy).riskScore
        ≤ (evaluateCustomRules overIntent cleanPolicy).riskScore
      ∧ (evaluateCustomRules overIntent cleanPolicy).approved = false
      ∧ (evaluateManually engineOverIntent engineAllowPolicy 0 0).approved = false := by
  have h := c9_monotonicRiskUnderViolation sampleIntent cleanPolicy overIntent cleanPolicy
    engineIntent engineAllowPolicy 0 0 engineOverIntent engineAllowPolicy 0 0 rfl rfl rfl rfl
  exact ⟨h.1.1, h.1.2.1, h.2.2.1⟩

/-- Replacing only the conditional-rule list leaves the evaluation context —
and hence every condition evaluation — unchanged. -/
theorem mkCondContext_setConditionalRules (i : PaymentIntent) (p : DynamicPolicy)
    (q : List ConditionalRule) :
    mkCondContext i (setConditionalRules p q) = mkCondContext i p := rfl

theorem amountLimitCheck_setConditionalRules (i : PaymentIntent) (p : DynamicPolicy)
    (q : List ConditionalRule) :
    amountLimitCheck i (setConditionalRules p q) = amountLimitCheck i p := rfl

theorem allowListCheck_setConditionalRules (i : PaymentIntent) (p : DynamicPolicy)
    (q : List ConditionalRule) :
    allowListCheck i (setConditionalRules p q) = allowListCheck i p := rfl

theorem blockListCheck_setConditionalRules (i : PaymentIntent) (p : DynamicPolicy)
    (q : List ConditionalRule) :
    blockListCheck i (setConditionalRules p q) = blockListCheck i p := rfl

theorem hourCheck_setConditionalRules (i : PaymentIntent) (p : DynamicPolicy)
    (q : List ConditionalRule) :
    hourCheck i (setConditionalRules p q) = hourCheck i p := rfl

theorem categoryRuleCheck_setConditionalRules (i : PaymentIntent) (p : DynamicPolicy)
    (q : List ConditionalRule) :
    categoryRuleCheck i (setConditionalRules p q) = categoryRuleCheck i p := rfl

theorem customRules_setConditionalRules (p : DynamicPolicy) (q : List ConditionalRule) :
    (setConditionalRules p q).rules.customRules = p.rules.customRules := rfl

theorem conditionalRules_setConditionalRules (p : DynamicPolicy) (q : List ConditionalRule) :
    (setConditionalRules p q).rules.conditionalRules = q := rfl

theorem conditionalRulesCheck_setConditionalRules (i : PaymentIntent) (p : DynamicPolicy)
    (q : List ConditionalRule) (xs : List ConditionalRule) :
    conditionalRulesCheck i (setConditionalRules p q) xs = conditionalRulesCheck i p xs := by
  induction xs with
  | nil => rfl
  | cons a as ih =>
    simp only [conditionalRulesCheck]
    rw [ih]
    rfl

/-- C10: unrecognized conditions are inert.  Any condition string outside the
seven-entry whitelist evaluates to `false` in every context without
throwing, and appending a conditional rule carrying such a condition to a
policy leaves the decision of `evaluateCustomRules` unchanged — no
violation, no risk, no applied-rule entry. -/
theorem c10_unrecognizedConditionInert (c : String) (ctx : CondContext)
    (i : PaymentIntent) (p : DynamicPolicy) (r : ConditionalRule)
    (hc : c ∉ safeConditionKeys) (hr : r.condition = c) :
    safeEvaluateCondition c ctx = false
      ∧ evaluateCustomRules i (setConditionalRules p (p.rules.conditionalRules ++ [r]))
          = evaluateCustomRules i p := by
  have hfalse : ∀ ctx2 : CondContext, safeEvaluateCondition c ctx2 = false := by
    intro ctx2
    simp only [safeConditionKeys, List.mem_cons, List.mem_singleton, not_or] at hc
    obtain ⟨n1, n2, n3, n4, n5, n6, n7⟩ := hc
    simp [safeEvaluateCondition, n1, n2, n3, n4, n5, n6, n7]
  refine ⟨hfalse ctx, ?_⟩
  have hstepP : conditionalRuleStep i p r = ([], 0, []) := by
    have he : evaluateCondition r.condition i p = false := by
      rw [hr]
      exact hfalse _
    simp [conditionalRuleStep, he]
  have happend : ∀ xs : List ConditionalRule,
      conditionalRulesCheck i p (xs ++ [r]) = conditionalRulesCheck i p xs := by
    intro xs
    induction xs with
    | nil => simp [conditionalRulesCheck, hstepP]
    | cons a as ih =>
      rw [List.cons_append]
      simp only [conditionalRulesCheck]
      rw [ih]
  simp only [evaluateCustomRules, amountLimitCheck_setConditionalRules,
    allowListCheck_setConditionalRules, blockListCheck_setConditionalRules,
    hourCheck_setConditionalRules, categoryRuleCheck_setConditionalRules,
    customRules_setConditionalRules, conditionalRules_setConditionalRules,
    conditionalRulesCheck_setConditionalRules, happend]

theorem c10_unrecognizedConditionInert_witness :
    safeEvaluateCondition "nonsense condition" (mkCondContext sampleIntent cleanPolicy) = false
      ∧ evaluateCustomRules sampleIntent
          (setConditionalRules cleanPolicy
            (cleanPolicy.rules.conditionalRules ++ [⟨"nonsense condition", .reject, []⟩]))
          = evaluateCustomRules sampleIntent cleanPolicy :=
  c10_unrecognizedConditionInert "nonsense condition" (mkCondContext sampleIntent cleanPolicy)
    sampleIntent cleanPolicy ⟨"nonsense condition", .reject, []⟩ (by decide) rfl
